import Mathlib

/-!
Shallow embedding of the data-resolution-and-analysis core of the
Industrial_analysis repository, together with theorems settling the
behavioural claims about it.

Source files embedded:
* `src/tools/mapped_data_loader.py` — `MappedDataLoader._resolve_file_name`,
  `MappedDataLoader.load_data`, `DataQuery.query_data`.
* `src/tools/data_analyzer.py` — `DataAnalyzer.analyze_distribution`,
  `DataAnalyzer.analyze_seasonality`, `DataAnalyzer.generate_correlation_matrix`,
  `DataAnalyzer.detect_outliers`.

Modelling conventions:
* pandas cell values are modelled by `Cell` (null / rational number / string /
  calendar date); a `DataFrame` is a `Table`: a header of column names plus
  row-major cells.
* Machine floats are modelled by exact rationals `ℚ`.  Quantities that are
  irrational in general (standard deviations, Pearson correlations, scipy's
  skewness and the normality-test p-value) are either carried in an exactly
  representable form (a variance instead of its square root, with the defining
  comparison rewritten equivalently) or abstracted as oracle function
  parameters, as noted at each definition.
* Python exceptions that escape a method are modelled by the `PyResult.exn`
  constructor, while returned `{"error": ...}` dictionaries are
  `PyResult.errorPayload`; successful result dictionaries are
  `PyResult.payload`.
* Filesystem state is a `FS` value (alias mapping, directory listing in
  listing order, and a parse outcome per file name); the disk operations a
  call performs are recorded in an explicit `Eff` trace.
-/

/- The Batteries library marks the rational-number operations `@[irreducible]`
to keep them from unfolding accidentally inside large proofs.  This
development evaluates its executable definitions on concrete inputs with
`decide`, which needs those operations to reduce, so their default
reducibility is restored locally. -/
set_option allowUnsafeReducibility true
attribute [local semireducible] Rat.mul Rat.inv Rat.add Rat.sub Rat.ofScientific

namespace IndustrialAnalysis

/-- A calendar date, as produced by `pd.to_datetime`.  Only the fields the
embedded code inspects (`dt.year`, `dt.quarter`, `dt.month`) are kept, with
`month` in `1..12`. -/
structure Date where
  year : Int
  month : Nat
  day : Nat
deriving DecidableEq, Repr

/-- One pandas cell: missing (`NaN`/`NaT`/`None`), a numeric value, a string,
or a datetime value. -/
inductive Cell where
  | null
  | num (q : ℚ)
  | str (s : String)
  | date (d : Date)
deriving DecidableEq, Repr

/-- A pandas `DataFrame`: column names plus row-major cells.  Well-formed
tables have every row of the same length as the header. -/
structure Table where
  header : List String
  rows : List (List Cell)
deriving DecidableEq, Repr

/-- Column count of a table (`len(df.columns)`). -/
def Table.colCount (df : Table) : Nat := df.header.length

/-- Row count of a table (`len(df)`). -/
def Table.rowCount (df : Table) : Nat := df.rows.length

/-- The cells of column `c` (`df[c]`); `[]` when the column is absent. -/
def Table.getCol (df : Table) (c : String) : List Cell :=
  match df.header.findIdx? (fun h => h = c) with
  | some i => df.rows.map (fun r => (r.get? i).getD Cell.null)
  | none => []

/-- Column assignment `df[c] = vals`: replaces the column in place when the
name exists, otherwise appends a new column on the right (pandas semantics).
Rows are aligned positionally. -/
def Table.setCol (df : Table) (c : String) (vals : List Cell) : Table :=
  match df.header.findIdx? (fun h => h = c) with
  | some i => ⟨df.header, (df.rows.zip vals).map (fun rv => rv.1.set i rv.2)⟩
  | none => ⟨df.header ++ [c], (df.rows.zip vals).map (fun rv => rv.1 ++ [rv.2])⟩

/-- Column projection `df[names]`: keeps the requested columns in request
order. -/
def Table.projectCols (df : Table) (names : List String) : Table :=
  ⟨names,
   df.rows.map (fun r =>
     names.map (fun c =>
       match df.header.findIdx? (fun h => h = c) with
       | some i => (r.get? i).getD Cell.null
       | none => Cell.null))⟩

/-- Whether a cell is missing. -/
def Cell.isNull : Cell → Bool
  | Cell.null => true
  | _ => false

/-- `Series.dropna()`: the non-null cells of a column, in order. -/
def dropna (cells : List Cell) : List Cell :=
  cells.filter (fun c => !c.isNull)

/-- The numeric values among a list of cells, in order.  On the numeric
columns all verified properties are about, this agrees with the pandas
`Series` contents after `dropna`. -/
def numsOf (cells : List Cell) : List ℚ :=
  cells.filterMap (fun c => match c with | Cell.num q => some q | _ => none)

/-- `pd.api.types.is_datetime64_any_dtype` for a column: it holds datetimes
(with `NaT` for the missing entries) and at least one actual datetime. -/
def isDatetimeCol (cells : List Cell) : Bool :=
  (cells.any (fun c => match c with | Cell.date _ => true | _ => false)) &&
  (cells.all (fun c => match c with | Cell.date _ => true | Cell.null => true | _ => false))

/-! ### Numeric primitives (exact-rational counterparts of the pandas ones) -/

/-- Arithmetic mean of a list of rationals (`Series.mean`).  The embedded
code only consults it on non-empty data. -/
def qMean (l : List ℚ) : ℚ := l.sum / l.length

/-- Sum of squared deviations from the mean; the exact building block for the
sample variance and the z-score test. -/
def ssDev (l : List ℚ) : ℚ := (l.map (fun x => (x - qMean l) ^ 2)).sum

/-- Sample variance with `ddof=1`, i.e. the square of `Series.std()`.  The
standard deviation itself is irrational in general, so the embedding carries
its square exactly; every comparison the source makes against it is rewritten
through the squaring bijection on nonnegatives. -/
def sampleVar (l : List ℚ) : ℚ :=
  if l.length ≤ 1 then 0 else ssDev l / ((l.length : ℚ) - 1)

/-- The data in ascending order.  Only used for order statistics, where the
choice of sorting algorithm is immaterial. -/
def sortedNums (l : List ℚ) : List ℚ :=
  l.insertionSort (fun a b => a ≤ b)

/-- `Series.quantile(p)` with the default linear interpolation, on already
sorted data: index `h = p·(n−1)`, interpolating between the neighbouring
order statistics. -/
def quantileSorted (s : List ℚ) (p : ℚ) : ℚ :=
  if s.isEmpty then 0
  else
    let h : ℚ := p * ((s.length : ℚ) - 1)
    let i : Nat := h.floor.toNat
    let a := (s.get? i).getD 0
    let b := (s.get? (i + 1)).getD a
    a + (h - (i : ℚ)) * (b - a)

/-- `Series.quantile(p)` (default linear interpolation). -/
def quantile (l : List ℚ) (p : ℚ) : ℚ := quantileSorted (sortedNums l) p

/-- `Series.median()` = the 0.5-quantile with linear interpolation. -/
def qMedian (l : List ℚ) : ℚ := quantile l (1/2)

/-- `Series.min()`; 0 on empty data (only reached in dead code). -/
def qMin (l : List ℚ) : ℚ := ((sortedNums l).head?).getD 0

/-- `Series.max()`; 0 on empty data (only reached in dead code). -/
def qMax (l : List ℚ) : ℚ := ((sortedNums l).getLast?).getD 0

/-! ### Filesystem model and `MappedDataLoader` -/

/-- Whether `needle` occurs as a contiguous substring in `hay`
(Python's `needle in hay`). -/
def charsInfix (needle : List Char) : List Char → Bool
  | [] => needle.isEmpty
  | c :: t => needle.isPrefixOf (c :: t) || charsInfix needle t

/-- Python's substring test `needle in hay` on strings. -/
def strContains (hay needle : String) : Bool :=
  charsInfix needle.toList hay.toList

/-- Python's `str.lower()`, character by character. -/
def strLower (s : String) : String :=
  ⟨s.data.map Char.toLower⟩

/-- Python's `str.endswith(tail)` (also `Path.glob("*.csv")` membership,
which keeps exactly the listed names ending in `.csv`). -/
def strEndsWith (s tail : String) : Bool :=
  tail.data.isSuffixOf s.data

/-- A snapshot of the loader's surroundings: the alias table from
`config/data_mapping.yaml` (`logical name → actual_file`, keys unique), the
data-root directory listing (in listing order, the order `glob` yields), and
for each file name the table that reading it produces — `none` models a file
none of the fallback encodings can decode (or an unreadable workbook). -/
structure FS where
  mapping : List (String × String)
  listing : List String
  content : String → Option Table

/-- Exact alias-table lookup (`logical_name in self.file_mapping` followed by
`self.file_mapping[logical_name]["actual_file"]`). -/
def FS.lookupMapping (fs : FS) (name : String) : Option String :=
  (fs.mapping.find? (fun e => e.1 = name)).map (fun e => e.2)

/-- The disk operations a loader call performs, in order: a
`Path.exists` probe, a `glob("*.csv")` directory scan, or a file read
(`pd.read_csv` / `pd.read_excel`).  The per-encoding retry loop inside one
`read_csv` call is recorded as a single `fileRead`; no verified property
depends on the number of encoding attempts within one load. -/
inductive Eff where
  | existsCheck (path : String)
  | globScan
  | fileRead (path : String)
deriving DecidableEq, Repr

/-- Number of file reads in a trace. -/
def countReads (tr : List Eff) : Nat :=
  (tr.filter (fun e => match e with | Eff.fileRead _ => true | _ => false)).length

/-- `MappedDataLoader._resolve_file_name`, with its disk-operation trace:
(1) exact alias-table lookup (no disk access);
(2) otherwise an existence probe for the logical name itself in the data
root;
(3) otherwise a `glob("*.csv")` scan returning the first `.csv` file whose
lower-cased name contains the lower-cased logical name;
(4) otherwise the logical name unchanged. -/
def resolveWithTrace (fs : FS) (logical : String) : String × List Eff :=
  match fs.lookupMapping logical with
  | some actual => (actual, [])
  | none =>
    if fs.listing.contains logical then (logical, [Eff.existsCheck logical])
    else
      let csvs := fs.listing.filter (fun f => strEndsWith f ".csv")
      match csvs.find? (fun f => strContains (strLower f) (strLower logical)) with
      | some f => (f, [Eff.existsCheck logical, Eff.globScan])
      | none => (logical, [Eff.existsCheck logical, Eff.globScan])

/-- `MappedDataLoader._resolve_file_name` (result only). -/
def resolveFileName (fs : FS) (logical : String) : String :=
  (resolveWithTrace fs logical).1

/-- Outcome of one `load_data` call: a loaded table, or the message of the
exception that escapes (`FileNotFoundError` / `ValueError`). -/
inductive LoadOutcome where
  | ok (t : Table)
  | error (e : String)
deriving DecidableEq, Repr

/-- The loader's cache `self.data_cache`: logical name → loaded table. -/
abbrev Cache := List (String × Table)

/-- Cache lookup by logical name (`file_name in self.data_cache`). -/
def lookupCache (cache : Cache) (name : String) : Option Table :=
  (cache.find? (fun e => e.1 = name)).map (fun e => e.2)

/-- The extension dispatch inside `load_data`'s `try` block: `.csv` (on
either the logical or the resolved name) reads with the encoding-fallback
loop — `fs.content actual = none` models every encoding failing, upon which
the source raises `ValueError` naming the attempted encodings; `.xlsx` /
`.xls` reads a workbook; any other extension raises
`ValueError("不支持的文件格式")` without touching the file.  Returns the
outcome and the reads performed. -/
def readDispatch (fs : FS) (file_name actual : String) :
    LoadOutcome × List Eff :=
  if strEndsWith file_name ".csv" || strEndsWith actual ".csv" then
    match fs.content actual with
    | some df => (LoadOutcome.ok df, [Eff.fileRead actual])
    | none =>
      (LoadOutcome.error ("ValueError: 无法使用任何编码读取文件: " ++ actual),
       [Eff.fileRead actual])
  else if strEndsWith file_name ".xlsx" || strEndsWith file_name ".xls" ||
          strEndsWith actual ".xlsx" || strEndsWith actual ".xls" then
    match fs.content actual with
    | some df => (LoadOutcome.ok df, [Eff.fileRead actual])
    | none => (LoadOutcome.error ("读取Excel失败: " ++ actual), [Eff.fileRead actual])
  else
    (LoadOutcome.error ("ValueError: 不支持的文件格式: " ++ file_name), [])

/-- `MappedDataLoader.load_data`, returning the outcome (a table, or the
uncaught exception's message), the cache afterwards, and the trace of disk
operations, faithful to the source order: the path is resolved *first*, then
the cache is consulted, and only on a miss does the loader probe existence,
dispatch on the extension, and — on success — store the table in the cache
under the *logical* name. -/
def load_data (fs : FS) (cache : Cache) (file_name : String) :
    LoadOutcome × Cache × List Eff :=
  let rp := resolveWithTrace fs file_name
  let actual := rp.1
  match lookupCache cache file_name with
  | some df => (LoadOutcome.ok df, cache, rp.2)
  | none =>
    if !(fs.listing.contains actual) then
      (LoadOutcome.error ("FileNotFoundError: 数据文件不存在: " ++ actual),
       cache, rp.2 ++ [Eff.existsCheck actual])
    else
      let rd := readDispatch fs file_name actual
      match rd.1 with
      | LoadOutcome.ok df =>
        (LoadOutcome.ok df, (file_name, df) :: cache,
         rp.2 ++ [Eff.existsCheck actual] ++ rd.2)
      | LoadOutcome.error e =>
        (LoadOutcome.error e, cache, rp.2 ++ [Eff.existsCheck actual] ++ rd.2)

/-! ### `DataQuery.query_data` -/

/-- One filter clause for a column, mirroring the recognised operator keys of
`query_data` (`eq`, `ne`, `gt`, `lt`, `gte`, `lte`, `in`, `contains`), a bare
(non-dict) condition meaning equality, and `unknownOp` for an operator dict
holding none of the recognised keys (which the source skips, leaving the rows
untouched).  A dict with several recognised keys resolves to the first one in
the source's `elif` chain; the clause supplied here is that key. -/
inductive FilterCond where
  | eqOp (v : Cell)
  | neOp (v : Cell)
  | gtOp (v : Cell)
  | ltOp (v : Cell)
  | gteOp (v : Cell)
  | lteOp (v : Cell)
  | isin (vs : List Cell)
  | containsOp (s : String)
  | direct (v : Cell)
  | unknownOp
deriving Repr

/-- Elementwise pandas equality of cells; missing values compare unequal to
everything (`NaN == x` is false). -/
def cellEqB : Cell → Cell → Bool
  | Cell.num a, Cell.num b => a = b
  | Cell.str a, Cell.str b => a = b
  | Cell.date a, Cell.date b => a = b
  | _, _ => false

/-- Elementwise pandas strict order on cells of the same kind; comparisons
involving missing values are false. -/
def cellLtB : Cell → Cell → Bool
  | Cell.num a, Cell.num b => a < b
  | Cell.str a, Cell.str b => a < b
  | Cell.date a, Cell.date b =>
    (a.year < b.year) || (a.year = b.year && a.month < b.month) ||
    (a.year = b.year && a.month = b.month && a.day < b.day)
  | _, _ => false

/-- Whether a cell passes one filter clause (`df[df[col] <op> value]`).
`contains` uses `str.contains(..., na=False)`: non-string cells fail. -/
def cellSatisfies (cond : FilterCond) (c : Cell) : Bool :=
  match cond with
  | FilterCond.eqOp v => cellEqB c v
  | FilterCond.neOp v => !(cellEqB c v)
  | FilterCond.gtOp v => cellLtB v c
  | FilterCond.ltOp v => cellLtB c v
  | FilterCond.gteOp v => cellLtB v c || cellEqB c v
  | FilterCond.lteOp v => cellLtB c v || cellEqB c v
  | FilterCond.isin vs => vs.any (fun v => cellEqB c v)
  | FilterCond.containsOp s =>
    match c with | Cell.str t => strContains t s | _ => false
  | FilterCond.direct v => cellEqB c v
  | FilterCond.unknownOp => true

/-- Keep the rows whose cell in column index `i` satisfies the clause. -/
def filterRowsAt (df : Table) (i : Nat) (cond : FilterCond) : Table :=
  ⟨df.header,
   df.rows.filter (fun r => cellSatisfies cond ((r.get? i).getD Cell.null))⟩

/-- `DataQuery.query_data` after the table has been loaded: column
projection (skipped when the requested list is falsy or when *no* requested
column exists — the source then only logs a warning and keeps the table as
is), then the filter clauses one column at a time (clauses naming a missing
column are skipped), then `head(limit)` (skipped when `limit` is falsy). -/
def query_data (df : Table) (filters : List (String × FilterCond))
    (columns : List String) (limit : Option Nat) : Table :=
  let df1 :=
    if columns.isEmpty then df
    else
      let available := columns.filter (fun c => df.header.contains c)
      if available.isEmpty then df else df.projectCols available
  let df2 := filters.foldl
    (fun acc cl =>
      match acc.header.findIdx? (fun h => h = cl.1) with
      | some i => filterRowsAt acc i cl.2
      | none => acc)
    df1
  match limit with
  | some n => if n ≠ 0 then ⟨df2.header, df2.rows.take n⟩ else df2
  | none => df2

/-! ### `DataAnalyzer` result types

Each analyzer method in the source first fetches
`data_result = self.data_query.get_data_summary(file_name)` and returns
`{"error": ...}` when its status is `"error"`; the embeddings below take the
successfully fetched table `df` directly, since every claim quantifies over
the table.  Each embedding returns the result *and* the state of the received
table after the call, so that frame properties are expressible. -/

/-- Outcome of one analyzer method: a success dictionary, a returned
`{"error": ...}` dictionary, or an exception escaping the method. -/
inductive PyResult (α : Type) where
  | payload (a : α)
  | errorPayload (msg : String)
  | exn (e : String)
deriving DecidableEq, Repr

/-! ### `DataAnalyzer.detect_outliers` -/

/-- The two success dictionaries of `detect_outliers`.  Percentages are exact
rationals. -/
inductive OutlierPayload where
  | iqr (lower_bound upper_bound : ℚ) (outliers : List ℚ)
      (outlier_count : Nat) (outlier_percentage : ℚ)
  | zscore (threshold : ℚ) (outliers : List ℚ)
      (outlier_count : Nat) (outlier_percentage : ℚ)
deriving DecidableEq, Repr

/-- The z-score selection `data[np.abs((data - mean) / std) > 3]` with the
`ddof=1` standard deviation, rewritten without the square root:
for `s > 0`, `|x−μ|/s > 3  ↔  (x−μ)²·(n−1) > 9·Σ(xᵢ−μ)²`.  When `n ≤ 1` or
all values are equal, `std` is `NaN` or `0`, every z-score is `NaN`, and the
`NaN > 3` comparison is false, so nothing is flagged. -/
def zscoreOutliers (l : List ℚ) : List ℚ :=
  if l.length ≤ 1 then []
  else if ssDev l = 0 then []
  else l.filter (fun x => (x - qMean l) ^ 2 * ((l.length : ℚ) - 1) > 9 * ssDev l)

/-- `DataAnalyzer.detect_outliers` on the fetched table: missing column →
error payload; `iqr` → bounds `Q1 − 1.5·IQR`, `Q3 + 1.5·IQR` and the values
outside them; `zscore` → threshold 3; any other method → error payload.  In
both numeric branches `outlier_percentage = len(outliers)/len(data)*100`
divides by the non-null count with no emptiness guard, so an empty valid
sample raises `ZeroDivisionError` (pandas' quantile/mean of an empty series
return `NaN` without raising, so control does reach the division).  The
method never writes to `df`, whose unchanged state is returned alongside. -/
def detect_outliers (df : Table) (column method : String) :
    PyResult OutlierPayload × Table :=
  (if !(df.header.contains column) then
    PyResult.errorPayload ("列不存在: " ++ column)
  else
    let data := dropna (df.getCol column)
    let nums := numsOf data
    if method = "iqr" then
      let q1 := quantile nums (1/4)
      let q3 := quantile nums (3/4)
      let iqr := q3 - q1
      let lower_bound := q1 - 1.5 * iqr
      let upper_bound := q3 + 1.5 * iqr
      let outliers := nums.filter (fun x => x < lower_bound || x > upper_bound)
      if data.length = 0 then PyResult.exn "ZeroDivisionError"
      else
        PyResult.payload
          (OutlierPayload.iqr lower_bound upper_bound outliers outliers.length
            ((outliers.length : ℚ) / (data.length : ℚ) * 100))
    else if method = "zscore" then
      let outliers := zscoreOutliers nums
      if data.length = 0 then PyResult.exn "ZeroDivisionError"
      else
        PyResult.payload
          (OutlierPayload.zscore 3 outliers outliers.length
            ((outliers.length : ℚ) / (data.length : ℚ) * 100))
    else
      PyResult.errorPayload ("不支持的异常值检测方法: " ++ method), df)

/-! ### `DataAnalyzer.analyze_distribution` -/

/-- What the local name `stats` denotes at the `return` of
`analyze_distribution`: either the descriptive-statistics dictionary
`{count, mean, median, std, min, max}` (with the standard deviation carried
as its square, the `ddof=1` variance, which is exact) or the `scipy.stats`
module that `from scipy import stats` rebinds the name to. -/
inductive StatsEntry where
  | map (count : Nat) (mean median stdSq mn mx : ℚ)
  | moduleRef (name : String)
deriving DecidableEq, Repr

/-- The normality-test sub-dictionary. -/
structure NormalityTest where
  p_value : ℚ
  is_normal : Bool
deriving DecidableEq, Repr

/-- The success dictionary of `analyze_distribution`. -/
structure DistPayload where
  statsEntry : StatsEntry
  skewness : ℚ
  kurtosis : ℚ
  distribution_type : String
  normality_test : Option NormalityTest
deriving DecidableEq, Repr

/-- `DataAnalyzer.analyze_distribution` on the fetched table.  The scipy
library calls are abstracted as oracle parameters (`skewFn`, `kurtFn` for
`stats.skew` / `stats.kurtosis`, whose values are irrational in general, and
`normaltestP` for the p-value of `stats.normaltest`); everything the method
itself computes is embedded concretely.  Faithful to the source, the local
`stats` is first bound to the descriptive dictionary and then rebound by
`from scipy import stats` to the module, so the returned `"stats"` entry is
the module, not the dictionary.  The method never writes to `df`. -/
def analyze_distribution (skewFn kurtFn normaltestP : List ℚ → ℚ)
    (df : Table) (column : String) : PyResult DistPayload × Table :=
  (if !(df.header.contains column) then
    PyResult.errorPayload ("列不存在: " ++ column)
  else
    let data := dropna (df.getCol column)
    if data.length = 0 then PyResult.errorPayload "没有有效数据"
    else
      let nums := numsOf data
      let stats := StatsEntry.map data.length (qMean nums) (qMedian nums)
        (sampleVar nums) (qMin nums) (qMax nums)
      let stats := StatsEntry.moduleRef "scipy.stats"
      let skewness := skewFn nums
      let kurtosis := kurtFn nums
      let normality_test : Option NormalityTest :=
        if data.length ≥ 8 then
          let p := normaltestP nums
          some ⟨p, decide (p > 0.05)⟩
        else none
      let distribution_type :=
        match normality_test with
        | some nt => if nt.is_normal then "正态分布" else "非正态分布"
        | none => "非正态分布"
      PyResult.payload ⟨stats, skewness, kurtosis, distribution_type,
        normality_test⟩, df)

/-! ### `DataAnalyzer.analyze_seasonality` -/

/-- One row of the grouped `agg(['mean','std','min','max'])` table, as
produced by the grouping oracle. -/
structure GroupAgg where
  mean : ℚ
  stdSq : ℚ
  mn : ℚ
  mx : ℚ
deriving DecidableEq, Repr

/-- The success dictionary of `analyze_seasonality`. -/
structure SeasonPayload where
  period_type : String
  period_stats : List (ℚ × GroupAgg)
  seasonality_strength : ℚ
  seasonality_level : String
deriving DecidableEq, Repr

/-- The calendar feature `dt.year` / `dt.quarter` / `dt.month` of one
datetime cell (missing for `NaT`). -/
def periodFeature (period : String) (c : Cell) : Cell :=
  match c with
  | Cell.date d =>
    if period = "year" then Cell.num (d.year : ℚ)
    else if period = "quarter" then Cell.num (((d.month - 1) / 3 + 1 : Nat) : ℚ)
    else Cell.num (d.month : ℚ)
  | _ => Cell.null

/-- `DataAnalyzer.analyze_seasonality` on the fetched table, returning the
result and the state of the received table after the call.  The
`pd.to_datetime` format-fallback chain is abstracted as the oracle `parseFn`
(`none` = every format fails, upon which the source raises `ValueError`); the
arithmetic after grouping — the per-bucket aggregates and the
coefficient-of-variation-of-coefficients-of-variation strength, both
involving irrational standard deviations — is abstracted as the oracle
`aggFn`, while the control flow the method owns is concrete: the `KeyError`
on a missing time column, the in-place coercion of the time column, the
period dispatch raising `ValueError` on an unsupported keyword, the in-place
creation of the `period` column, and the strength-level thresholds. -/
def analyze_seasonality (parseFn : List Cell → Option (List Cell))
    (aggFn : Table → String → List (ℚ × GroupAgg) × ℚ)
    (df : Table) (time_col value_col period : String) :
    PyResult SeasonPayload × Table :=
  if !(df.header.contains time_col) then
    (PyResult.exn ("KeyError: " ++ time_col), df)
  else
    let tcol := df.getCol time_col
    let step1 : Except String Table :=
      if isDatetimeCol tcol then Except.ok df
      else
        match parseFn tcol with
        | some parsed => Except.ok (df.setCol time_col parsed)
        | none => Except.error ("ValueError: 无法解析日期列 " ++ time_col ++ " 的格式")
    match step1 with
    | Except.error e => (PyResult.exn e, df)
    | Except.ok df1 =>
      if period = "year" || period = "quarter" || period = "month" then
        let df2 := df1.setCol "period"
          ((df1.getCol time_col).map (periodFeature period))
        if !(df2.header.contains value_col) then
          (PyResult.exn ("KeyError: " ++ value_col), df2)
        else
          let ag := aggFn df2 value_col
          let strength := ag.2
          (PyResult.payload ⟨period, ag.1, strength,
            if strength > 0.5 then "强"
            else if strength > 0.2 then "中" else "弱"⟩, df2)
      else
        (PyResult.exn ("ValueError: 不支持的时间周期: " ++ period), df1)

/-! ### `DataAnalyzer.generate_correlation_matrix` -/

/-- The success dictionary of `generate_correlation_matrix`: the matrix as a
nested name-indexed mapping, the strong pairs with their sign label, and the
column list used. -/
structure CorrPayload where
  correlation_matrix : List (String × List (String × ℚ))
  strong_correlations : List (String × String × ℚ × String)
  columns : List String
deriving DecidableEq, Repr

/-- Numeric dtype test for a column (`select_dtypes(include=[np.number])`):
every cell is a number or missing. -/
def isNumericCol (cells : List Cell) : Bool :=
  cells.all (fun c => match c with
  | Cell.num _ => true | Cell.null => true | _ => false)

/-- The ordered pairs `(i, j)` with `i < j` of a list, in the double-loop
order of the source. -/
def upperPairs : List α → List (α × α)
  | [] => []
  | a :: t => t.map (fun b => (a, b)) ++ upperPairs t

/-- `DataAnalyzer.generate_correlation_matrix` on the fetched table.
Pearson correlations are irrational in general and are abstracted as the
oracle `corrFn df cols a b`; the method's own logic — defaulting to all
numeric columns, the explicit missing-column error, and the extraction of
pairs with `|r| > 0.7` labelled `强正相关` when `r > 0.7` and `强负相关`
otherwise — is concrete.  The method never writes to `df`. -/
def generate_correlation_matrix
    (corrFn : Table → List String → String → String → ℚ)
    (df : Table) (columns : Option (List String)) :
    PyResult CorrPayload × Table :=
  (let cols :=
    match columns with
    | some cs => cs
    | none => (df.header.filter (fun c => isNumericCol (df.getCol c)))
  let missing := cols.filter (fun c => !(df.header.contains c))
  if !missing.isEmpty then
    PyResult.errorPayload ("列不存在: " ++ String.intercalate ", " missing)
  else
    let corr := corrFn df cols
    let matrix := cols.map (fun a => (a, cols.map (fun b => (b, corr a b))))
    let strong := (upperPairs cols).filterMap (fun p =>
      let v := corr p.1 p.2
      if |v| > 0.7 then
        some (p.1, p.2, v, if v > 0.7 then "强正相关" else "强负相关")
      else none)
    PyResult.payload ⟨matrix, strong, cols⟩, df)

/-! ### Spec-side resolver (for the refinement comparison of claim C3) -/

/-- The resolver exactly as the claim words it — identical priority cascade,
except that step 3 scans *all* filenames in the data root, not only those
matching `*.csv`.  Kept separate so it can be compared against
`resolveFileName`, which is translated from the source. -/
def resolveClaimSpec (fs : FS) (logical : String) : String :=
  match fs.lookupMapping logical with
  | some actual => actual
  | none =>
    if fs.listing.contains logical then logical
    else
      match fs.listing.find? (fun f => strContains (strLower f) (strLower logical)) with
      | some f => f
      | none => logical

/-! ### Helper lemmas -/

/-- A column name absent from a header is not found by `findIdx?`. -/
theorem findIdx?_eq_none_of_not_contains {l : List String} {c : String}
    (h : l.contains c = false) : l.findIdx? (fun x => x = c) = none := by
  rw [List.findIdx?_eq_none_iff]
  intro x hx
  simp only [List.contains, List.elem_eq_mem, decide_eq_false_iff_not] at h
  simp only [decide_eq_false_iff_not]
  intro hxc
  exact h (hxc ▸ hx)

/-- The resolver's trace never contains a file read. -/
theorem resolve_trace_no_reads (fs : FS) (name : String) :
    countReads (resolveWithTrace fs name).2 = 0 := by
  unfold resolveWithTrace
  cases fs.lookupMapping name with
  | some a => rfl
  | none =>
    cases hc : fs.listing.contains name with
    | true => simp [hc, countReads]
    | false =>
      simp only [hc, Bool.false_eq_true, if_false]
      cases (fs.listing.filter (fun f => strEndsWith f ".csv")).find?
          (fun f => strContains (strLower f) (strLower name)) with
      | some f => rfl
      | none => rfl

/-- Reads in a concatenated trace add up. -/
theorem countReads_append (a b : List Eff) :
    countReads (a ++ b) = countReads a + countReads b := by
  simp [countReads, List.filter_append]

/-- One extension dispatch performs at most one file read. -/
theorem countReads_readDispatch_le_one (fs : FS) (fn ac : String) :
    countReads (readDispatch fs fn ac).2 ≤ 1 := by
  unfold readDispatch
  repeat' split
  all_goals simp [countReads]

/-- On a cache hit, `load_data` returns the cached table, leaves the cache
unchanged, and performs exactly the resolution trace (the resolution still
runs before the cache is consulted). -/
theorem load_data_cache_hit (fs : FS) (cache : Cache) (name : String)
    (t : Table) (h : lookupCache cache name = some t) :
    load_data fs cache name
      = (LoadOutcome.ok t, cache, (resolveWithTrace fs name).2) := by
  unfold load_data
  rw [h]

/-- Any call whose outcome is a table leaves that table in the cache under
the logical name. -/
theorem load_data_ok_caches (fs : FS) (cache : Cache) (name : String)
    (t : Table) (h : (load_data fs cache name).1 = LoadOutcome.ok t) :
    lookupCache (load_data fs cache name).2.1 name = some t := by
  simp only [load_data] at h ⊢
  revert h
  generalize hgen : lookupCache cache name = lc
  intro h
  cases lc with
  | some df =>
    dsimp only at h ⊢
    cases h
    exact hgen
  | none =>
    dsimp only at h ⊢
    by_cases hex : (!(fs.listing.contains (resolveWithTrace fs name).1)) = true
    · rw [if_pos hex] at h
      simp at h
    · rw [if_neg hex] at h ⊢
      revert h
      generalize (readDispatch fs name (resolveWithTrace fs name).1).1 = rd
      intro h
      cases rd with
      | ok df =>
        dsimp only at h ⊢
        cases h
        unfold lookupCache
        rw [List.find?_cons_of_pos]
        · rfl
        · simp
      | error e =>
        dsimp only at h
        simp at h

/-- One `load_data` call reads the file at most once. -/
theorem load_data_reads_le_one (fs : FS) (cache : Cache) (name : String) :
    countReads (load_data fs cache name).2.2 ≤ 1 := by
  simp only [load_data]
  generalize lookupCache cache name = lc
  cases lc with
  | some df =>
    dsimp only
    simp [resolve_trace_no_reads fs name]
  | none =>
    dsimp only
    by_cases hex : (!(fs.listing.contains (resolveWithTrace fs name).1)) = true
    · rw [if_pos hex]
      dsimp only
      rw [countReads_append, resolve_trace_no_reads fs name]
      simp [countReads]
    · rw [if_neg hex]
      generalize hrd : (readDispatch fs name (resolveWithTrace fs name).1).1 = rd
      cases rd with
      | ok df =>
        dsimp only
        rw [countReads_append, countReads_append, resolve_trace_no_reads fs name]
        have h1 : countReads [Eff.existsCheck (resolveWithTrace fs name).1] = 0 := rfl
        rw [h1]
        simpa using countReads_readDispatch_le_one fs name (resolveWithTrace fs name).1
      | error e =>
        dsimp only
        rw [countReads_append, countReads_append, resolve_trace_no_reads fs name]
        have h1 : countReads [Eff.existsCheck (resolveWithTrace fs name).1] = 0 := rfl
        rw [h1]
        simpa using countReads_readDispatch_le_one fs name (resolveWithTrace fs name).1

/-! ### Concrete instances used by the closed theorems -/

/-- A table with one numeric column `v = [1, 2, 3]`. -/
def tblV123 : Table := ⟨["v"], [[Cell.num 1], [Cell.num 2], [Cell.num 3]]⟩

/-- A table with one numeric column `v = [1, 2, 3, 4, 100]`. -/
def tblV5 : Table :=
  ⟨["v"], [[Cell.num 1], [Cell.num 2], [Cell.num 3], [Cell.num 4], [Cell.num 100]]⟩

/-- A table whose only column `v` holds only missing values. -/
def tblAllNull : Table := ⟨["v"], [[Cell.null], [Cell.null]]⟩

/-- A one-column table used for the projection counterexample. -/
def tblA : Table := ⟨["a"], [[Cell.num 1]]⟩

/-- A data root holding a single spreadsheet file and no aliases. -/
def fsXlsx : FS := ⟨[], ["report.xlsx"], fun _ => none⟩

/-! ### Claim C1 -/

/-- Claim C1: On the table with column `v = [1, 2, 3]`, `analyze_distribution`
returns a success payload whose `stats` entry is the `scipy.stats` module —
`from scipy import stats` rebinds the local name after the descriptive
dictionary is built — and in particular is *not* the descriptive-statistics
mapping `{count: 3, mean: 2, median: 2, std²: 1, min: 1, max: 3}` the claim
(and the code's own intent) call for.  The oracle values for skewness,
kurtosis and the normality p-value are irrelevant here and instantiated with
the zero function; with only 3 observations no normality test is attempted. -/
theorem C1_distribution_stats_module_bug :
    (analyze_distribution (fun _ => 0) (fun _ => 0) (fun _ => 0) tblV123 "v").1
      = PyResult.payload
          ⟨StatsEntry.moduleRef "scipy.stats", 0, 0, "非正态分布", none⟩ ∧
    StatsEntry.moduleRef "scipy.stats" ≠ StatsEntry.map 3 2 2 1 1 3 := by
  exact ⟨by decide, by decide⟩

/-! ### Claim C8 -/

/-- Claim C8: On the column `[1, 2, 3, 4, 100]`, IQR detection (bounds
`Q1 − 1.5·IQR = −1` and `Q3 + 1.5·IQR = 7`) flags exactly the value 100
(count 1, 20% of the column), while z-score detection with threshold 3 flags
nothing (count 0, 0%); both payloads carry the outlier values, their count
and their percentage, and the table is left unchanged. -/
theorem C8_outliers_iqr_zscore :
    detect_outliers tblV5 "v" "iqr"
      = (PyResult.payload (OutlierPayload.iqr (-1) 7 [100] 1 20), tblV5) ∧
    detect_outliers tblV5 "v" "zscore"
      = (PyResult.payload (OutlierPayload.zscore 3 [] 0 0), tblV5) := by
  exact ⟨by decide, by decide⟩

/-! ### Claim C10 -/

/-- Claim C10: When the target column exists but has no non-null value, both
the IQR and the z-score branch of `detect_outliers` reach the unguarded
division `len(outliers) / len(data)` with `len(data) = 0` and raise
`ZeroDivisionError` — no structured insufficient-data failure payload is
produced. -/
theorem C10_outliers_empty_sample_division (df : Table) (column : String)
    (hmem : df.header.contains column = true)
    (hnull : (df.getCol column).all Cell.isNull = true) :
    detect_outliers df column "iqr" = (PyResult.exn "ZeroDivisionError", df) ∧
    detect_outliers df column "zscore" = (PyResult.exn "ZeroDivisionError", df) := by
  have hdata : dropna (df.getCol column) = [] := by
    unfold dropna
    rw [List.filter_eq_nil_iff]
    intro a ha
    rw [List.all_eq_true] at hnull
    simp [hnull a ha]
  have hmem2 : column ∈ df.header := by
    simpa using hmem
  constructor
  · simp [detect_outliers, hmem2, hdata]
  · simp [detect_outliers, hmem2, hdata]

/-! ### Claim C2 -/

/-- Claim C2 counterexample: Querying the one-column table `{a: [1]}` with the
projection list `["b"]` (every requested column absent) returns the table
*unchanged* — one column, not zero columns: the source skips the projection
entirely when no requested column exists. -/
theorem C2_projection_all_absent_counterexample :
    query_data tblA [] ["b"] none = tblA ∧
    (query_data tblA [] ["b"] none).colCount = 1 := by
  exact ⟨by decide, by decide⟩

/-- Claim C2 amended: With no filters and no limit, `query_data` projects onto
the requested columns that exist (in request order); when *none* of the
requested columns exists (or the request list is empty) the projection is
skipped and the table is returned with all its columns.  Rows are always
preserved, and the query never fails on missing projection columns (the
function is total). -/
theorem C2_projection_amended (df : Table) (cols : List String) :
    query_data df [] cols none =
      (if cols.filter (fun c => df.header.contains c) = [] then df
       else df.projectCols (cols.filter (fun c => df.header.contains c))) ∧
    (query_data df [] cols none).rows.length = df.rows.length := by
  have hmain : query_data df [] cols none =
      (if cols.filter (fun c => df.header.contains c) = [] then df
       else df.projectCols (cols.filter (fun c => df.header.contains c))) := by
    unfold query_data
    simp only [List.foldl_nil]
    cases cols with
    | nil => simp
    | cons c t =>
      simp only [List.isEmpty_cons, Bool.false_eq_true, if_false]
      by_cases h : (c :: t).filter (fun x => df.header.contains x) = []
      · simp [h]
      · simp [h, List.isEmpty_eq_false_iff_exists_mem]
  refine ⟨hmain, ?_⟩
  rw [hmain]
  by_cases h : cols.filter (fun c => df.header.contains c) = []
  · rw [if_pos h]
  · rw [if_neg h]
    simp [Table.projectCols]

/-! ### Claim C3 -/

/-- Claim C3 counterexample: With no aliases and a data root containing only
`report.xlsx`, resolving the logical name `report` returns `report`
unchanged: the fuzzy scan of the source globs only `*.csv` files, whereas
the claim's step 3 — a substring scan over *the filenames in the data root* —
would return `report.xlsx` (which does contain `report`, lower-cased). -/
theorem C3_resolver_skips_non_csv_counterexample :
    resolveFileName fsXlsx "report" = "report" ∧
    resolveClaimSpec fsXlsx "report" = "report.xlsx" ∧
    strContains (strLower "report.xlsx") (strLower "report") = true ∧
    resolveFileName fsXlsx "report" ≠ resolveClaimSpec fsXlsx "report" := by
  exact ⟨by decide, by decide, by decide, by decide⟩

/-- Claim C3 amended: `_resolve_file_name` applies, first match winning:
(1) exact alias-table lookup, overriding everything else; (2) the logical
name itself when it is an existing file in the data root; (3) a
case-insensitive substring scan over the `*.csv` filenames *only* (not all
filenames) in directory-listing order; (4) otherwise the logical name
unchanged.  Resolution itself never raises — the function is total. -/
theorem C3_resolve_priority_amended (fs : FS) (name : String) :
    (∀ a, fs.lookupMapping name = some a → resolveFileName fs name = a) ∧
    (fs.lookupMapping name = none → fs.listing.contains name = true →
      resolveFileName fs name = name) ∧
    (∀ f, fs.lookupMapping name = none → fs.listing.contains name = false →
      (fs.listing.filter (fun g => strEndsWith g ".csv")).find?
        (fun g => strContains (strLower g) (strLower name)) = some f →
      resolveFileName fs name = f) ∧
    (fs.lookupMapping name = none → fs.listing.contains name = false →
      (fs.listing.filter (fun g => strEndsWith g ".csv")).find?
        (fun g => strContains (strLower g) (strLower name)) = none →
      resolveFileName fs name = name) := by
  refine ⟨?_, ?_, ?_, ?_⟩
  · intro a ha
    unfold resolveFileName resolveWithTrace
    rw [ha]
  · intro h1 h2
    unfold resolveFileName resolveWithTrace
    rw [h1]
    have h2m : name ∈ fs.listing := by simpa using h2
    simp [h2m]
  · intro f h1 h2 h3
    unfold resolveFileName resolveWithTrace
    rw [h1]
    simp only [h2, Bool.false_eq_true, if_false, h3]
  · intro h1 h2 h3
    unfold resolveFileName resolveWithTrace
    rw [h1]
    simp only [h2, Bool.false_eq_true, if_false, h3]

/-- A configuration where the alias table maps `sales` to
`actual_sales.csv` even though `sales_2023.csv` in the data root would also
match by substring — the alias wins. -/
def fsAlias : FS :=
  ⟨[("sales", "actual_sales.csv")], ["sales_2023.csv"], fun _ => none⟩

/-- Witness for the amended C3 at a concrete configuration: the alias entry
overrides the filesystem substring match. -/
theorem C3_resolve_priority_amended_witness :
    resolveFileName fsAlias "sales" = "actual_sales.csv" :=
  (C3_resolve_priority_amended fsAlias "sales").1 "actual_sales.csv" (by decide)

/-! ### Claim C4 -/

/-- A table with a datetime column `d` and a numeric column `v`. -/
def tblDated : Table :=
  ⟨["d", "v"],
   [[Cell.date ⟨2023, 1, 5⟩, Cell.num 10],
    [Cell.date ⟨2023, 4, 6⟩, Cell.num 12]]⟩

/-- Claim C4 counterexample: `analyze_seasonality` called with the unsupported
period `week` on a well-formed dated table *raises* `ValueError` past the
method boundary (the source executes `raise ValueError(...)`), instead of
returning an `InvalidParameterError` failure payload as the claim states;
`detect_outliers` with the unknown method `mad`, by contrast, does return a
failure payload. -/
theorem C4_seasonality_raises_counterexample :
    (analyze_seasonality (fun _ => none) (fun _ _ => ([], 0))
        tblDated "d" "v" "week").1
      = PyResult.exn "ValueError: 不支持的时间周期: week" ∧
    (detect_outliers tblDated "v" "mad").1
      = PyResult.errorPayload "不支持的异常值检测方法: mad" := by
  exact ⟨by decide, by decide⟩

/-- Claim C4 amended: `detect_outliers` with a method outside `{iqr, zscore}`
(and an existing target column) returns an `InvalidParameterError`-style
failure payload, while `analyze_seasonality` with a period outside
`{year, quarter, month}` (and an existing, datetime-typed time column)
raises a `ValueError` that escapes to the caller as an exception, not a
failure payload. -/
theorem C4_invalid_parameter_amended
    (df : Table) (col m : String)
    (hcol : df.header.contains col = true)
    (hm1 : m ≠ "iqr") (hm2 : m ≠ "zscore")
    (parseFn : List Cell → Option (List Cell))
    (aggFn : Table → String → List (ℚ × GroupAgg) × ℚ)
    (sdf : Table) (tc vc p : String)
    (htc : sdf.header.contains tc = true)
    (hdt : isDatetimeCol (sdf.getCol tc) = true)
    (hp1 : p ≠ "year") (hp2 : p ≠ "quarter") (hp3 : p ≠ "month") :
    detect_outliers df col m
      = (PyResult.errorPayload ("不支持的异常值检测方法: " ++ m), df) ∧
    (analyze_seasonality parseFn aggFn sdf tc vc p).1
      = PyResult.exn ("ValueError: 不支持的时间周期: " ++ p) := by
  constructor
  · have hcolm : col ∈ df.header := by simpa using hcol
    simp [detect_outliers, hcolm, hm1, hm2]
  · have htcm : tc ∈ sdf.header := by simpa using htc
    simp [analyze_seasonality, htcm, hdt, hp1, hp2, hp3]

/-- Witness for the amended C4 at concrete inputs. -/
theorem C4_invalid_parameter_amended_witness :
    detect_outliers tblDated "v" "median_abs"
      = (PyResult.errorPayload ("不支持的异常值检测方法: " ++ "median_abs"),
         tblDated) ∧
    (analyze_seasonality (fun _ => none) (fun _ _ => ([], 0))
        tblDated "d" "v" "decade").1
      = PyResult.exn ("ValueError: 不支持的时间周期: " ++ "decade") :=
  C4_invalid_parameter_amended tblDated "v" "median_abs" (by decide)
    (by decide) (by decide) (fun _ => none) (fun _ _ => ([], 0))
    tblDated "d" "v" "decade" (by decide) (by decide)
    (by decide) (by decide) (by decide)

/-! ### Claim C9 -/

/-- Claim C9 counterexample: `analyze_seasonality` over the two-column dated
table changes the column count of the table it received: the in-place
assignment `df['period'] = ...` appends a third column, so the received
table does not keep its column count. -/
theorem C9_seasonality_mutates_counterexample :
    ((analyze_seasonality (fun _ => none) (fun _ _ => ([], 0))
        tblDated "d" "v" "month").2).colCount ≠ tblDated.colCount := by
  decide

/-- Claim C9 amended: `analyze_distribution`, `detect_outliers` and
`generate_correlation_matrix` leave the table they receive unchanged, for
every input and every oracle; `analyze_trend`, `analyze_seasonality` and
`compare_periods` may modify the received table in place (time-column
coercion) — in particular `analyze_seasonality`, on a table with an
existing datetime time column and no pre-existing `period` column, adds a
`period` column, increasing the column count by one. -/
theorem C9_analyses_frame_amended
    (skewFn kurtFn pFn : List ℚ → ℚ) (df : Table) (col m : String)
    (cols : Option (List String))
    (corrFn : Table → List String → String → String → ℚ)
    (parseFn : List Cell → Option (List Cell))
    (aggFn : Table → String → List (ℚ × GroupAgg) × ℚ)
    (sdf : Table) (tc vc : String)
    (htc : tc ∈ sdf.header)
    (hdt : isDatetimeCol (sdf.getCol tc) = true)
    (hnp : sdf.header.contains "period" = false) :
    (analyze_distribution skewFn kurtFn pFn df col).2 = df ∧
    (detect_outliers df col m).2 = df ∧
    (generate_correlation_matrix corrFn df cols).2 = df ∧
    (analyze_seasonality parseFn aggFn sdf tc vc "month").2.colCount
      = sdf.colCount + 1 := by
  refine ⟨rfl, rfl, rfl, ?_⟩
  have htcb : sdf.header.contains tc = true := by simpa using htc
  have hset : ∀ vals, (sdf.setCol "period" vals).colCount = sdf.colCount + 1 := by
    intro vals
    unfold Table.setCol
    rw [findIdx?_eq_none_of_not_contains hnp]
    simp [Table.colCount]
  unfold analyze_seasonality
  simp only [htcb, hdt, Bool.not_true, Bool.false_eq_true, if_false, if_true]
  split
  · split
    · exact hset _
    · exact hset _
  · simp_all

/-- Witness for the amended C9 at concrete inputs. -/
theorem C9_analyses_frame_amended_witness :
    (analyze_distribution (fun _ => 0) (fun _ => 0) (fun _ => 0)
        tblV5 "v").2 = tblV5 ∧
    (detect_outliers tblV5 "v" "iqr").2 = tblV5 ∧
    (generate_correlation_matrix (fun _ _ _ _ => 0) tblV5 none).2 = tblV5 ∧
    (analyze_seasonality (fun _ => none) (fun _ _ => ([], 0))
        tblDated "d" "v" "month").2.colCount = tblDated.colCount + 1 :=
  C9_analyses_frame_amended (fun _ => 0) (fun _ => 0) (fun _ => 0) tblV5 "v"
    "iqr" none (fun _ _ _ _ => 0) (fun _ => none) (fun _ _ => ([], 0))
    tblDated "d" "v" (by decide) (by decide) (by decide)

/-- Witness for C10 at the concrete all-null table. -/
theorem C10_outliers_empty_sample_division_witness :
    detect_outliers tblAllNull "v" "iqr"
      = (PyResult.exn "ZeroDivisionError", tblAllNull) ∧
    detect_outliers tblAllNull "v" "zscore"
      = (PyResult.exn "ZeroDivisionError", tblAllNull) :=
  C10_outliers_empty_sample_division tblAllNull "v" (by decide) (by decide)

/-! ### Claim C6 -/

/-- Claim C6: If a `load_data` call succeeds with table `t`, then the cache
afterwards holds `t` under the *logical* name (even when the resolved file
name differs), a second call with no intervening cache clear returns the
very same table from the cache, leaves the cache unchanged, performs no file
read, and across the two calls the file is read at most once. -/
theorem C6_load_twice_reads_once (fs : FS) (cache : Cache) (name : String)
    (t : Table) (h : (load_data fs cache name).1 = LoadOutcome.ok t) :
    lookupCache (load_data fs cache name).2.1 name = some t ∧
    (load_data fs (load_data fs cache name).2.1 name).1 = LoadOutcome.ok t ∧
    (load_data fs (load_data fs cache name).2.1 name).2.1
      = (load_data fs cache name).2.1 ∧
    countReads (load_data fs (load_data fs cache name).2.1 name).2.2 = 0 ∧
    countReads (load_data fs cache name).2.2
      + countReads (load_data fs (load_data fs cache name).2.1 name).2.2 ≤ 1 := by
  have hcache := load_data_ok_caches fs cache name t h
  have hsecond := load_data_cache_hit fs (load_data fs cache name).2.1 name t hcache
  refine ⟨hcache, ?_, ?_, ?_, ?_⟩
  · rw [hsecond]
  · rw [hsecond]
  · rw [hsecond]
    exact resolve_trace_no_reads fs name
  · rw [hsecond]
    simpa [resolve_trace_no_reads fs name] using load_data_reads_le_one fs cache name

/-- A configuration whose alias table maps the logical name `销售数据` to
the file `sales_2023.csv`, which exists and parses. -/
def fsSales : FS :=
  ⟨[("销售数据", "sales_2023.csv")], ["sales_2023.csv"],
   fun n => if n = "sales_2023.csv" then some tblV123 else none⟩

/-- Witness for C6: loading `销售数据` twice from an empty cache.  The cache
key is the logical name, the second call is served from the cache, and the
file is read exactly once across both calls. -/
theorem C6_load_twice_reads_once_witness :
    lookupCache (load_data fsSales [] "销售数据").2.1 "销售数据" = some tblV123 ∧
    (load_data fsSales (load_data fsSales [] "销售数据").2.1 "销售数据").1
      = LoadOutcome.ok tblV123 ∧
    (load_data fsSales (load_data fsSales [] "销售数据").2.1 "销售数据").2.1
      = (load_data fsSales [] "销售数据").2.1 ∧
    countReads (load_data fsSales (load_data fsSales [] "销售数据").2.1 "销售数据").2.2
      = 0 ∧
    countReads (load_data fsSales [] "销售数据").2.2
      + countReads (load_data fsSales (load_data fsSales [] "销售数据").2.1
          "销售数据").2.2 ≤ 1 :=
  C6_load_twice_reads_once fsSales [] "销售数据" tblV123 (by decide)

/-! ### Claim C7 -/

/-- A table sitting in the cache for the counterexample configuration. -/
def tblCached : Table := ⟨["x"], [[Cell.num 5]]⟩

/-- A cache already holding `foo.csv`. -/
def cacheFoo : Cache := [("foo.csv", tblCached)]

/-- A filesystem with no aliases and an empty data root. -/
def fsEmpty : FS := ⟨[], [], fun _ => none⟩

/-- Claim C7 counterexample: With `foo.csv` already cached, `load_data` still
resolves the name *before* consulting the cache: on this cache hit it
performs a file-existence probe and a `glob` directory scan (the claim says
no existence check or directory scan happens on a hit).  The returned value
is nevertheless the cached table. -/
theorem C7_cache_hit_probes_disk_counterexample :
    load_data fsEmpty cacheFoo "foo.csv"
      = (LoadOutcome.ok tblCached, cacheFoo,
         [Eff.existsCheck "foo.csv", Eff.globScan]) ∧
    Eff.existsCheck "foo.csv" ∈ (load_data fsEmpty cacheFoo "foo.csv").2.2 := by
  exact ⟨by decide, by decide⟩

/-- Claim C7 amended: On a cache hit, `load_data` returns the cached table
without *reading* any file — the returned value does not depend on the
filesystem state — and leaves the cache unchanged, but path resolution still
runs first, so its trace is exactly the resolver's trace (which may contain
an existence probe and a directory scan, never a file read). -/
theorem C7_cache_hit_amended (fs : FS) (cache : Cache) (name : String)
    (t : Table) (h : lookupCache cache name = some t) :
    load_data fs cache name
      = (LoadOutcome.ok t, cache, (resolveWithTrace fs name).2) ∧
    countReads (load_data fs cache name).2.2 = 0 := by
  refine ⟨load_data_cache_hit fs cache name t h, ?_⟩
  rw [load_data_cache_hit fs cache name t h]
  exact resolve_trace_no_reads fs name

/-- Witness for the amended C7 at the concrete cached configuration. -/
theorem C7_cache_hit_amended_witness :
    load_data fsEmpty cacheFoo "foo.csv"
      = (LoadOutcome.ok tblCached, cacheFoo,
         (resolveWithTrace fsEmpty "foo.csv").2) ∧
    countReads (load_data fsEmpty cacheFoo "foo.csv").2.2 = 0 :=
  C7_cache_hit_amended fsEmpty cacheFoo "foo.csv" tblCached (by decide)

end IndustrialAnalysis
